import Mathlib

/-!
Verification of the Local Eats Chat API core logic (`main.py`, `schemas.py`).

The embedding models the matching/ranking/aggregation logic of the chat and
review endpoints.  The MongoDB store is modelled as in-memory association
lists `(_id, document)`; the store's regex capability (always used here as a
case-insensitive substring or whole-string test) is modelled as such; Python
floats are modelled as exact rationals, with Python's `round(x, 1)`
(round-half-to-even) implemented on exact integer arithmetic.
-/

/-- `schemas.Restaurant`: one document of the `restaurant` collection. -/
structure Restaurant where
  name : String
  address : String
  city : String
  cuisine : List String
  dishes : List String
  takeaway : Bool
  price_level : Nat
  tags : List String
  photo_url : Option String
  rating_avg : ℚ
  rating_count : Nat
deriving DecidableEq

/-- `schemas.Review` as stored: one document of the `review` collection.
The `created_at` field is modelled from the spec: the store (`database.py`,
absent from the sources) stamps each inserted document with a creation
timestamp, used by `get_restaurant` for newest-first ordering. -/
structure ReviewDoc where
  restaurant_id : String
  user_name : String
  rating : Int
  comment : Option String
  photos : List String
  created_at : Nat
deriving DecidableEq

/-- The document store: the two collections used by the endpoints, plus a
monotone counter modelling generated ids and creation timestamps. -/
structure DB where
  restaurant : List (String × Restaurant)
  review : List (String × ReviewDoc)
  nextId : Nat
deriving DecidableEq

/-! ### String utilities (Python `str.lower`, `str.strip`, `str.split`) -/

/-- Python `str.lower()` (ASCII case folding, which covers all data here). -/
def pyLower (s : String) : String := ⟨s.data.map Char.toLower⟩

/-- Drop the characters satisfying `p` from both ends of a character list. -/
def dropEnds (p : Char → Bool) (l : List Char) : List Char :=
  ((l.dropWhile p).reverse.dropWhile p).reverse

/-- Python `word.strip('.,!?')` from `chatbot_search`. -/
def stripPunct (s : String) : String :=
  ⟨dropEnds (fun c => (c == '.') || (c == ',') || (c == '!') || (c == '?')) s.data⟩

/-- Python `str.strip()` (whitespace at both ends), used on the city. -/
def stripWsEnds (s : String) : String :=
  ⟨dropEnds Char.isWhitespace s.data⟩

/-- Helper for Python `str.split()`: split on whitespace runs, no empties. -/
def splitWsAux : List Char → List Char → List String
  | [], acc => if acc.isEmpty then [] else [⟨acc.reverse⟩]
  | c :: cs, acc =>
    if c.isWhitespace then
      if acc.isEmpty then splitWsAux cs [] else (⟨acc.reverse⟩ : String) :: splitWsAux cs []
    else splitWsAux cs (c :: acc)

/-- Python `q.split()`. -/
def tokenize (s : String) : List String := splitWsAux s.data []

/-- `leadEq needle hay`: `needle` is an initial segment of `hay`. -/
def leadEq : List Char → List Char → Bool
  | [], _ => true
  | _ :: _, [] => false
  | a :: as, b :: bs => (a == b) && leadEq as bs

/-- `containsSub hay needle`: `needle` occurs contiguously inside `hay`. -/
def containsSub : List Char → List Char → Bool
  | [], n => n.isEmpty
  | l@(_ :: t), n => leadEq n l || containsSub t n

/-- Case-insensitive substring test: the store-level semantics of the
`$regex ... $options "i"` predicates of `chatbot_search` (the query text
used there contains no regex metacharacters beyond plain text). -/
def ciContains (hay needle : String) : Bool :=
  containsSub (pyLower hay).data (pyLower needle).data

/-- Helper for Python `w.replace('taco','mexican')`: scan left to right,
emitting the replacement and skipping the match (non-overlapping). -/
def replTacoAux : Nat → List Char → List Char
  | _ + 1, [] => []
  | k + 1, _ :: cs => replTacoAux k cs
  | 0, [] => []
  | 0, c :: cs =>
    if leadEq "taco".data (c :: cs) then "mexican".data ++ replTacoAux 3 cs
    else c :: replTacoAux 0 cs

/-- Python `w.replace('taco','mexican')` from `chatbot_search`. -/
def replaceTacoMexican (s : String) : String := ⟨replTacoAux 0 s.data⟩

example : replaceTacoMexican "taco" = "mexican" := by decide
example : replaceTacoMexican "thai" = "thai" := by decide
example : stripPunct "tacos!?" = "tacos" := by decide
example : tokenize "cheap  tacos takeaway" = ["cheap", "tacos", "takeaway"] := by decide
example : ciContains "GraffiTaco" "taco" = true := by decide

/-! ### Query Interpreter (`chatbot_search`, heuristic parsing loop) -/

/-- The accumulator of the parsing loop of `chatbot_search`: the spec's
Filter Intent (its `dishes` accumulator exists but is never filled, exactly
as in the source, where the `dishes` list has no populating vocabulary). -/
structure Intent where
  cuisines : List String
  dishes : List String
  tags : List String
  price_level : Option Nat
  takeaway : Option Bool
deriving DecidableEq

/-- The state of `cuisines/dishes/tags/price_level/takeaway` before the loop. -/
def initIntent : Intent := ⟨[], [], [], none, none⟩

/-- `cuisine_keywords` from `chatbot_search`. -/
def cuisine_keywords : List String :=
  ["mexican", "taco", "thai", "asian", "japanese", "ramen", "italian", "pizza", "indian",
    "burger", "sushi", "korean", "bbq", "vegan", "vegetarian", "halal", "dessert", "noodle",
    "chinese"]

/-- One iteration of the parsing loop of `chatbot_search`: the sequence of
independent `if` statements applied to one whitespace token. -/
def applyToken (st : Intent) (word : String) : Intent :=
  let w := stripPunct word
  let st := if ["cheap", "budget", "inexpensive"].contains w then
    { st with price_level := some 1 } else st
  let st := if ["mid", "moderate", "affordable"].contains w then
    { st with price_level := some 2 } else st
  let st := if ["fancy", "premium", "expensive"].contains w then
    { st with price_level := some 4 } else st
  let st := if ["takeaway", "takeout", "to-go"].contains w then
    { st with takeaway := some true } else st
  let st := if ["dine-in", "eat-in"].contains w then
    { st with takeaway := some false } else st
  let st := if ["spicy", "late-night", "cozy", "colourful", "family"].contains w then
    { st with tags := st.tags ++ [w] } else st
  let st := if cuisine_keywords.contains w then
    { st with cuisines := st.cuisines ++ [replaceTacoMexican w] } else st
  st

/-- The whole parsing loop of `chatbot_search`, over the lowercased query. -/
def interpret (q : String) : Intent := (tokenize q).foldl applyToken initIntent

/-! ### Filter Builder (`chatbot_search`, construction of `filt`) -/

/-- The `filt` dictionary of `chatbot_search` as a record of its optional
sub-constraints (a missing key is `none`). -/
structure Filt where
  city : Option String
  cuisine : Option (List String)
  dishes : Option (List String)
  tags : Option (List String)
  price_level : Option Nat
  takeaway : Option Bool
deriving DecidableEq

/-- Building `filt` from the stripped city and the parsed intent.  Python's
`list(set(...))` is modelled by `List.dedup` (the `$in` test below only uses
membership, for which deduplication and order are irrelevant), and the
truthiness tests `if cuisines:` / `if price_level:` are modelled literally. -/
def buildFilt (city : String) (it : Intent) : Filt where
  city := if city == "" then none else some city
  cuisine := if it.cuisines.isEmpty then none else some it.cuisines.dedup
  dishes := if it.dishes.isEmpty then none else some it.dishes.dedup
  tags := if it.tags.isEmpty then none else some it.tags.dedup
  price_level := match it.price_level with
    | none => none
    | some p => if p == 0 then none else some p
  takeaway := it.takeaway

/-- Store-level semantics of `filt` on one restaurant document: the city key
is the anchored case-insensitive regex `^city$` (whole-string caseless
equality); `$in` on an array field holds when some element of the field is
in the given list; `$lte` and the boolean key are direct comparisons. -/
def filtMatches (f : Filt) (r : Restaurant) : Bool :=
  (match f.city with
    | none => true
    | some c => pyLower r.city == pyLower c) &&
  (match f.cuisine with
    | none => true
    | some l => r.cuisine.any (fun x => l.contains x)) &&
  (match f.dishes with
    | none => true
    | some l => r.dishes.any (fun x => l.contains x)) &&
  (match f.tags with
    | none => true
    | some l => r.tags.any (fun x => l.contains x)) &&
  (match f.price_level with
    | none => true
    | some p => decide (r.price_level ≤ p)) &&
  (match f.takeaway with
    | none => true
    | some t => r.takeaway == t)

/-! ### Search Executor (`chatbot_search`, Step 1 and the fallback) -/

/-- Step 1: `db[rest_col].find(filt).limit(12)`. -/
def step1Results (db : DB) (q city : String) : List (String × Restaurant) :=
  let f := buildFilt city (interpret q)
  (db.restaurant.filter (fun p => filtMatches f p.2)).take 12

/-- The `$or` predicate of the fallback query: the raw (lowercased) query as
a case-insensitive substring of the name, or of some dish, cuisine or tag. -/
def fallbackPred (q : String) (r : Restaurant) : Bool :=
  ciContains r.name q || r.dishes.any (fun d => ciContains d q) ||
    r.cuisine.any (fun c => ciContains c q) || r.tags.any (fun t => ciContains t q)

/-- Step 2: the fallback query `db[rest_col].find({"$or": ...}).limit(12)`. -/
def step2Results (db : DB) (q : String) : List (String × Restaurant) :=
  (db.restaurant.filter (fun p => fallbackPred q p.2)).take 12

/-- `results` after the two steps of `chatbot_search`:
`if not results and q:` runs the fallback. -/
def searchResults (db : DB) (q city : String) : List (String × Restaurant) :=
  let r1 := step1Results db q city
  if r1.isEmpty && !(q == "") then step2Results db q else r1

/-! ### Ranker & Responder (`chatbot_search`, answer composition) -/

/-- The response of `chatbot_search`: the answer text plus the (transformed)
result documents, kept here as `(id, document)` pairs. -/
structure ChatResp where
  answer : String
  results : List (String × Restaurant)
deriving DecidableEq

/-- The fixed guidance message returned when no restaurant matched. -/
def guidanceMessage : String :=
  "I couldn\x27t find an exact match. Try mentioning a cuisine, dish, price range (cheap/fancy), or city."

/-- The comparison used by `sorted(payload, key=lambda x: x.get("rating_avg", 0), reverse=True)`:
descending on `rating_avg`. -/
def ratingDesc (a b : String × Restaurant) : Prop :=
  b.2.rating_avg ≤ a.2.rating_avg

instance : DecidableRel ratingDesc :=
  fun _ _ => inferInstanceAs (Decidable (_ ≤ _))

instance : IsTotal (String × Restaurant) ratingDesc :=
  ⟨fun a b => le_total b.2.rating_avg a.2.rating_avg⟩

instance : IsTrans (String × Restaurant) ratingDesc :=
  ⟨fun _ _ _ h1 h2 => le_trans h2 h1⟩

/-- The tail of `chatbot_search` after the two search steps: the guidance
response on an empty payload, otherwise the "Top picks" sentence built from
the top 3 of the stable descending sort (Python's `sorted` is stable, and
`reverse=True` preserves stability; `List.insertionSort` with a non-strict
descending comparison has exactly that behaviour), plus the full payload. -/
def respond (payload : List (String × Restaurant)) (city : String) : ChatResp :=
  if payload.isEmpty then { answer := guidanceMessage, results := [] }
  else
    let top := (List.insertionSort ratingDesc payload).take 3
    let names := String.intercalate ", " (top.map (fun t => t.2.name))
    let cityTxt := if city == "" then "" else " in " ++ city
    { answer := "Top picks" ++ cityTxt ++ ": " ++ names ++ ". Tap a card to see details and reviews."
      results := payload }

/-- `POST /api/chat` (`chatbot_search`): lowercase the query, strip the
optional city, run the two search steps, and respond. -/
def chatbot_search (db : DB) (query : String) (cityArg : Option String) : ChatResp :=
  let q := pyLower query
  let city := stripWsEnds (cityArg.getD "")
  respond (searchResults db q city) city

/-! ### Identifiers and errors (`oid`, `HTTPException`) -/

/-- An `HTTPException(status_code, detail)`. -/
structure HTTPError where
  status : Nat
  detail : String
deriving DecidableEq

/-- A char usable in a hexadecimal `ObjectId` string. -/
def isHexChar (c : Char) : Bool :=
  c.isDigit || (decide ('a' ≤ c) && decide (c ≤ 'f')) || (decide ('A' ≤ c) && decide (c ≤ 'F'))

/-- The identifier shape accepted by `bson.ObjectId(oid_str)` for a string
argument: exactly 24 hexadecimal characters. -/
def isValidObjectId (s : String) : Bool :=
  (s.length == 24) && s.data.all isHexChar

/-- `oid` from `main.py`: parse the id or raise `HTTPException(400, "Invalid id")`.
A parsed `ObjectId` is represented by its canonical lowercase hex string
(bson compares ids by their bytes, so hex case is irrelevant). -/
def oid (s : String) : Except HTTPError String :=
  if isValidObjectId s then .ok (pyLower s) else .error ⟨400, "Invalid id"⟩

/-! ### Rating Aggregator (`add_review`) -/

/-- The request body `ReviewCreate` of `POST /api/reviews`. -/
structure ReviewCreate where
  restaurant_id : String
  user_name : String
  rating : Int
  comment : Option String
  photos : Option (List String)

/-- The JSON returned by `add_review`. -/
structure AddReviewResp where
  review_id : String
  rating_avg : ℚ
  rating_count : Nat
deriving DecidableEq

/-- Modelled from the spec: `create_document` (from `database.py`, absent
from the sources) inserts a document into the named collection and returns
its generated unique identifier; per the spec's data model, the store also
stamps the review with its creation timestamp.  Both are modelled with the
monotone counter `nextId`. -/
def create_review_document (db : DB) (restaurant_id user_name : String) (rating : Int)
    (comment : Option String) (photos : List String) : String × DB :=
  let rid := toString db.nextId
  (rid,
    { db with
        review := db.review ++ [(rid, ⟨restaurant_id, user_name, rating, comment, photos, db.nextId⟩)]
        nextId := db.nextId + 1 })

/-- Round-half-to-even of the exact fraction `a / b` (for `b > 0`): the
semantics of Python's `round` applied to `statistics.mean`, on exact
integer arithmetic instead of binary floats. -/
def roundHalfEvenFrac (a b : ℤ) : ℤ :=
  let f := a.ediv b
  let r := a.emod b
  if 2 * r < b then f
  else if b < 2 * r then f + 1
  else if f.emod 2 = 0 then f else f + 1

/-- `round(mean(ratings), 1) if ratings else 0` from `add_review`. -/
def aggregateAvg (ratings : List Int) : ℚ :=
  if ratings.isEmpty then 0
  else ((roundHalfEvenFrac (10 * ratings.sum) (ratings.length : ℤ) : ℤ) : ℚ) / 10

/-- `update_one({"_id": k}, {"$set": {"rating_avg": a, "rating_count": c}})`:
update the first (in a store with unique ids, the only) matching record. -/
def update_one_ratings : List (String × Restaurant) → String → ℚ → Nat → List (String × Restaurant)
  | [], _, _, _ => []
  | p :: rest, k, a, c =>
    if p.1 == k then (p.1, { p.2 with rating_avg := a, rating_count := c }) :: rest
    else p :: update_one_ratings rest k a c

/-- The review documents referencing `rid` (by the raw id string, exactly as
`add_review` queries them). -/
def reviewsFor (db : DB) (rid : String) : List ReviewDoc :=
  (db.review.filter (fun p => p.2.restaurant_id == rid)).map (fun p => p.2)

/-- `POST /api/reviews` (`add_review`): insert the review, recompute the
aggregates from every review referencing the raw id, then parse the id (an
invalid id raises only here, after the insert) and update the restaurant.
The pair returned is the store state after the call plus the outcome. -/
def add_review (db : DB) (body : ReviewCreate) : DB × Except HTTPError AddReviewResp :=
  let rdb := create_review_document db body.restaurant_id body.user_name body.rating
    body.comment (body.photos.getD [])
  let rid := rdb.1
  let db1 := rdb.2
  let ratings := (db1.review.filter (fun p => p.2.restaurant_id == body.restaurant_id)).map
    (fun p => p.2.rating)
  let avg := aggregateAvg ratings
  let count := ratings.length
  match oid body.restaurant_id with
  | .error e => (db1, .error e)
  | .ok k => ({ db1 with restaurant := update_one_ratings db1.restaurant k avg count },
      .ok ⟨rid, avg, count⟩)

/-! ### Restaurant detail (`get_restaurant`) -/

/-- The JSON returned by `get_restaurant`. -/
structure RestaurantDetail where
  restaurant : String × Restaurant
  reviews : List (String × ReviewDoc)
deriving DecidableEq

/-- The comparison of `.sort("created_at", -1)`: descending on `created_at`. -/
def createdDesc (a b : String × ReviewDoc) : Prop :=
  b.2.created_at ≤ a.2.created_at

instance : DecidableRel createdDesc :=
  fun _ _ => inferInstanceAs (Decidable (_ ≤ _))

instance : IsTotal (String × ReviewDoc) createdDesc :=
  ⟨fun a b => Nat.le_total b.2.created_at a.2.created_at⟩

instance : IsTrans (String × ReviewDoc) createdDesc :=
  ⟨fun _ _ _ h1 h2 => Nat.le_trans h2 h1⟩

/-- `GET /api/restaurants/{restaurant_id}` (`get_restaurant`): parse the id,
look the restaurant up (`find_one`), 404 when absent, and return it with its
reviews sorted newest-first and capped at 20. -/
def get_restaurant (db : DB) (restaurant_id : String) : Except HTTPError RestaurantDetail :=
  match oid restaurant_id with
  | .error e => .error e
  | .ok k =>
    match db.restaurant.find? (fun p => p.1 == k) with
    | none => .error ⟨404, "Restaurant not found"⟩
    | some doc =>
      let revs := (List.insertionSort createdDesc
        (db.review.filter (fun p => p.2.restaurant_id == restaurant_id))).take 20
      .ok ⟨doc, revs⟩

/-! ### Concrete stores used in examples and witnesses -/

/-- The three demo restaurants of `seed_demo`, under modelled generated ids. -/
def seedDB : DB where
  restaurant :=
    [("66a000000000000000000001",
      ⟨"GraffiTaco", "12 Brick Lane", "London", ["mexican", "street"],
        ["al pastor tacos", "elote"], true, 2, ["late-night", "colourful"],
        some "https://images.unsplash.com/photo-1601050690597-9bff8f1f1a5d", 46/10, 128⟩),
     ("66a000000000000000000002",
      ⟨"Neon Noodles", "88 Market St", "Manchester", ["asian", "thai"],
        ["pad thai", "green curry"], true, 1, ["vegan-options", "spicy"],
        some "https://images.unsplash.com/photo-1544025162-d76694265947", 43/10, 93⟩),
     ("66a000000000000000000003",
      ⟨"Ramen Graffiti", "5 Shoreditch High St", "London", ["japanese", "ramen"],
        ["tonkotsu", "spicy miso"], true, 3, ["cozy", "neo-tokyo"],
        some "https://images.unsplash.com/photo-1543352634-78b3b2fd0de7", 48/10, 210⟩)]
  review := []
  nextId := 3

/-- A syntactically valid restaurant id (24 hex chars). -/
def ridA : String := "aaaaaaaaaaaaaaaaaaaaaaaa"

/-- A second valid id, matching no record of the stores below. -/
def ridB : String := "bbbbbbbbbbbbbbbbbbbbbbbb"

/-- A plain restaurant used by the review-flow examples. -/
def restA : Restaurant :=
  ⟨"Cafe A", "1 A St", "London", [], [], true, 2, [], none, 0, 0⟩

/-- A store with one restaurant and no reviews yet. -/
def dbA : DB := ⟨[(ridA, restA)], [], 0⟩

/-- A restaurant whose name contains the query text used by the fallback
counterexamples; all structured fields are neutral. -/
def mysteryRest (nm : String) : Restaurant :=
  ⟨nm, "1 St", "London", [], [], true, 2, [], none, 0, 0⟩

/-- Thirteen restaurants whose names all contain "mystery": one more than
the result cap of the fallback query. -/
def db13 : DB where
  restaurant :=
    [("b01", mysteryRest "mystery spot a"), ("b02", mysteryRest "mystery spot b"),
     ("b03", mysteryRest "mystery spot c"), ("b04", mysteryRest "mystery spot d"),
     ("b05", mysteryRest "mystery spot e"), ("b06", mysteryRest "mystery spot f"),
     ("b07", mysteryRest "mystery spot g"), ("b08", mysteryRest "mystery spot h"),
     ("b09", mysteryRest "mystery spot i"), ("b10", mysteryRest "mystery spot j"),
     ("b11", mysteryRest "mystery spot k"), ("b12", mysteryRest "mystery spot l"),
     ("b13", mysteryRest "mystery spot m")]
  review := []
  nextId := 13

/-- Two restaurants whose names contain "mystery": below the cap of 12. -/
def dbSmall : DB :=
  ⟨[("b01", mysteryRest "mystery spot a"), ("b02", mysteryRest "mystery spot b")], [], 2⟩

/-- A store with one restaurant and three reviews inserted out of timestamp
order, for the newest-first witness. -/
def dbRev : DB where
  restaurant := [(ridA, restA)]
  review :=
    [("0", ⟨ridA, "ann", 5, none, [], 5⟩),
     ("1", ⟨ridA, "bob", 4, none, [], 9⟩),
     ("2", ⟨ridA, "cat", 3, none, [], 7⟩)]
  nextId := 3

example : searchResults seedDB "" "paris" = [] := by decide
example : (step1Results seedDB "graffi" "").length = 3 := by decide
example : isValidObjectId ridA = true := by decide
example : isValidObjectId "not-an-id" = false := by decide

/-! ### Claim theorems -/

/-- C2: the fallback (Step 2) query executes if and only if Step 1 returned
zero candidates and the raw query text is non-empty: the result is Step 1's
whenever Step 1 is non-empty or the query is empty, and is Step 2's exactly
when Step 1 is empty and the query is non-empty. -/
theorem search_fallback_iff (db : DB) (q city : String) :
    (step1Results db q city ≠ [] → searchResults db q city = step1Results db q city) ∧
    (q = "" → searchResults db q city = step1Results db q city) ∧
    (step1Results db q city = [] → q ≠ "" → searchResults db q city = step2Results db q) := by
  refine ⟨?_, ?_, ?_⟩
  · intro h
    have he : (step1Results db q city).isEmpty = false := by
      cases hc : step1Results db q city with
      | nil => exact absurd hc h
      | cons a l => rfl
    simp [searchResults, he]
  · intro h
    subst h
    simp [searchResults]
  · intro h1 h2
    have hq : (q == "") = false := by
      cases hq2 : q == "" with
      | true => exact absurd (by simpa using hq2) h2
      | false => rfl
    simp [searchResults, h1, hq]

/-- Witness for C2: on the seeded store, an empty query with a city matching
nothing still returns Step 1's (empty) result, fallback suppressed; and when
Step 1 is empty with a non-empty query, the result is the fallback's. -/
theorem search_fallback_iff_witness :
    searchResults seedDB "" "paris" = step1Results seedDB "" "paris" ∧
    searchResults seedDB "graffi" "" = step1Results seedDB "graffi" "" ∧
    searchResults db13 "mystery" "atlantis" = step2Results db13 "mystery" :=
  ⟨(search_fallback_iff seedDB "" "paris").2.1 rfl,
   (search_fallback_iff seedDB "graffi" "").1 (by decide),
   (search_fallback_iff db13 "mystery" "atlantis").2.2 (by decide) (by decide)⟩

/-- C6: whenever both search steps end with zero candidates, `chatbot_search`
still succeeds (it is a total function into `ChatResp`) and returns the fixed
guidance message with an empty result list. -/
theorem empty_search_gives_guidance (db : DB) (query : String) (cityArg : Option String)
    (h : searchResults db (pyLower query) (stripWsEnds (cityArg.getD "")) = []) :
    chatbot_search db query cityArg = ⟨guidanceMessage, []⟩ := by
  simp [chatbot_search, h, respond]

/-- Witness for C6: the nonsense query "asdfqwerty" with a city matching no
record yields the guidance message with an empty list on the seeded store. -/
theorem empty_search_gives_guidance_witness :
    chatbot_search seedDB "asdfqwerty" (some "Paris") = ⟨guidanceMessage, []⟩ :=
  empty_search_gives_guidance seedDB "asdfqwerty" (some "Paris") (by decide)

/-- C8: a malformed restaurant id makes the review submission fail with the
400 "Invalid id" client error, and a well-formed id with no matching record
makes the restaurant-detail operation fail with the 404 "Restaurant not
found" client error; the two errors are distinct. -/
theorem malformed_and_notfound_errors_distinct :
    (∀ (db : DB) (body : ReviewCreate), isValidObjectId body.restaurant_id = false →
      (add_review db body).2 = Except.error ⟨400, "Invalid id"⟩) ∧
    (∀ (db : DB) (s : String), isValidObjectId s = true →
      db.restaurant.find? (fun p => p.1 == pyLower s) = none →
      get_restaurant db s = Except.error ⟨404, "Restaurant not found"⟩) ∧
    (⟨400, "Invalid id"⟩ : HTTPError) ≠ ⟨404, "Restaurant not found"⟩ := by
  refine ⟨?_, ?_, by decide⟩
  · intro db body h
    simp [add_review, oid, h]
  · intro db s hv hf
    simp [get_restaurant, oid, hv, hf]

/-- Witness for C8: a malformed id on the review endpoint and an unknown
well-formed id on the detail endpoint produce the two distinct errors. -/
theorem malformed_and_notfound_errors_distinct_witness :
    (add_review dbA ⟨"zz", "u", 5, none, none⟩).2 = Except.error ⟨400, "Invalid id"⟩ ∧
    get_restaurant dbA ridB = Except.error ⟨404, "Restaurant not found"⟩ :=
  ⟨malformed_and_notfound_errors_distinct.1 dbA ⟨"zz", "u", 5, none, none⟩ (by decide),
   malformed_and_notfound_errors_distinct.2.1 dbA ridB (by decide) (by decide)⟩

/-- C10: with a syntactically invalid restaurant id, `add_review` still
inserts the review document into the review collection and only then fails
with the id-format error: the store state changes although the operation
reports failure (the id is validated only at the aggregate-update step). -/
theorem invalid_id_review_inserted_then_error (db : DB) (body : ReviewCreate)
    (h : isValidObjectId body.restaurant_id = false) :
    (add_review db body).2 = Except.error ⟨400, "Invalid id"⟩ ∧
    (add_review db body).1.review = db.review ++
      [(toString db.nextId,
        ⟨body.restaurant_id, body.user_name, body.rating, body.comment,
          body.photos.getD [], db.nextId⟩)] ∧
    (add_review db body).1.restaurant = db.restaurant := by
  refine ⟨?_, ?_, ?_⟩ <;> simp [add_review, oid, create_review_document, h]

/-- The review document built (and timestamped) by the insert of `add_review`. -/
def newReviewDoc (db : DB) (body : ReviewCreate) : ReviewDoc :=
  ⟨body.restaurant_id, body.user_name, body.rating, body.comment,
    body.photos.getD [], db.nextId⟩

/-- The review collection right after the insert of `add_review`. -/
def postReviews (db : DB) (body : ReviewCreate) : List (String × ReviewDoc) :=
  db.review ++ [(toString db.nextId, newReviewDoc db body)]

/-- The `ratings` list recomputed by `add_review` after the insert. -/
def postRatings (db : DB) (body : ReviewCreate) : List Int :=
  ((postReviews db body).filter
    (fun p => p.2.restaurant_id == body.restaurant_id)).map (fun p => p.2.rating)

theorem add_review_ok_eq (db : DB) (body : ReviewCreate)
    (hv : isValidObjectId body.restaurant_id = true) :
    add_review db body =
      ({ restaurant := update_one_ratings db.restaurant (pyLower body.restaurant_id)
            (aggregateAvg (postRatings db body)) (postRatings db body).length,
         review := postReviews db body,
         nextId := db.nextId + 1 },
       Except.ok ⟨toString db.nextId, aggregateAvg (postRatings db body),
         (postRatings db body).length⟩) := by
  simp [add_review, create_review_document, oid, hv, postReviews, postRatings, newReviewDoc]

/-- C1: a review submission recomputes the aggregate from scratch: for every
store and request with a well-formed id, the call succeeds and returns a
response whose `rating_count` is the number of reviews referencing that id
in the post-call store, whose `rating_avg` is the one-decimal rounded mean
of their ratings (`aggregateAvg`, which is 0 on an empty review set), and
whose `review_id` is the id under which the new review document was stored;
moreover, submitting ratings 5, 4, 3 for one restaurant ends with
`rating_avg = 4` and `rating_count = 3`, both in the response and on the
stored restaurant record. -/
theorem add_review_recomputes_aggregate :
    (∀ (db : DB) (body : ReviewCreate), isValidObjectId body.restaurant_id = true →
      ∃ resp : AddReviewResp, (add_review db body).2 = Except.ok resp ∧
        resp.rating_count = (reviewsFor (add_review db body).1 body.restaurant_id).length ∧
        resp.rating_avg = aggregateAvg
          ((reviewsFor (add_review db body).1 body.restaurant_id).map (fun rv => rv.rating)) ∧
        ∃ t : Nat, (resp.review_id,
          (⟨body.restaurant_id, body.user_name, body.rating, body.comment,
            body.photos.getD [], t⟩ : ReviewDoc)) ∈ (add_review db body).1.review) ∧
    ((add_review (add_review (add_review dbA ⟨ridA, "ann", 5, none, none⟩).1
        ⟨ridA, "bob", 4, none, none⟩).1 ⟨ridA, "cat", 3, none, none⟩).2 =
      Except.ok ⟨"2", 4, 3⟩ ∧
      ((add_review (add_review (add_review dbA ⟨ridA, "ann", 5, none, none⟩).1
          ⟨ridA, "bob", 4, none, none⟩).1 ⟨ridA, "cat", 3, none, none⟩).1.restaurant.find?
            (fun p => p.1 == ridA)).map (fun p => (p.2.rating_avg, p.2.rating_count)) =
        some (4, 3)) := by
  have hval : ((roundHalfEvenFrac 120 3 : ℤ) : ℚ) / 10 = 4 := by
    rw [show roundHalfEvenFrac 120 3 = 40 from by decide]
    norm_num
  refine ⟨?_, ?_, ?_⟩
  · intro db body hv
    rw [add_review_ok_eq db body hv]
    refine ⟨_, rfl, ?_, ?_, db.nextId, ?_⟩
    · simp [reviewsFor, postRatings]
    · simp [reviewsFor, postRatings, List.map_map, Function.comp_def]
    · simp [postReviews, newReviewDoc]
  · calc (add_review (add_review (add_review dbA ⟨ridA, "ann", 5, none, none⟩).1
          ⟨ridA, "bob", 4, none, none⟩).1 ⟨ridA, "cat", 3, none, none⟩).2 =
        Except.ok ⟨"2", ((roundHalfEvenFrac 120 3 : ℤ) : ℚ) / 10, 3⟩ := rfl
      _ = Except.ok ⟨"2", 4, 3⟩ := by rw [hval]
  · calc ((add_review (add_review (add_review dbA ⟨ridA, "ann", 5, none, none⟩).1
          ⟨ridA, "bob", 4, none, none⟩).1 ⟨ridA, "cat", 3, none, none⟩).1.restaurant.find?
            (fun p => p.1 == ridA)).map (fun p => (p.2.rating_avg, p.2.rating_count)) =
        some (((roundHalfEvenFrac 120 3 : ℤ) : ℚ) / 10, 3) := rfl
      _ = some (4, 3) := by rw [hval]

/-- Witness for C1: applying the aggregate theorem to the concrete store
with one restaurant and the concrete request with a well-formed id. -/
theorem add_review_recomputes_aggregate_witness :
    ∃ resp : AddReviewResp,
      (add_review dbA ⟨ridA, "ann", 5, none, none⟩).2 = Except.ok resp ∧
      resp.rating_count =
        (reviewsFor (add_review dbA ⟨ridA, "ann", 5, none, none⟩).1 ridA).length ∧
      resp.rating_avg = aggregateAvg
        ((reviewsFor (add_review dbA ⟨ridA, "ann", 5, none, none⟩).1 ridA).map
          (fun rv => rv.rating)) ∧
      ∃ t : Nat, (resp.review_id,
        (⟨ridA, "ann", 5, none, (none : Option (List String)).getD [], t⟩ : ReviewDoc)) ∈
          (add_review dbA ⟨ridA, "ann", 5, none, none⟩).1.review :=
  add_review_recomputes_aggregate.1 dbA ⟨ridA, "ann", 5, none, none⟩ (by decide)

/-- Counterexample for C3: the fallback caps results at 12, so it does NOT
include every restaurant matching the substring check when more than 12
match.  In `db13`, the non-empty query "mystery" with city "atlantis" makes
Step 1 empty, all thirteen restaurants satisfy the fallback predicate, yet
the thirteenth is not in the returned results. -/
theorem fallback_cap_excludes_thirteenth :
    "mystery" ≠ "" ∧
    step1Results db13 "mystery" "atlantis" = [] ∧
    ("b13", mysteryRest "mystery spot m") ∈ db13.restaurant ∧
    fallbackPred "mystery" (mysteryRest "mystery spot m") = true ∧
    ("b13", mysteryRest "mystery spot m") ∉ searchResults db13 "mystery" "atlantis" := by
  decide

/-- C3 (amended): for every non-empty query whose Step 1 predicate matches
zero records, the result is the fallback's, which consists of the first 12
(store order) restaurants whose name, or some dish, cuisine or tag entry,
contains the raw query as a case-insensitive substring (logical OR over the
four fields); every such matching restaurant is included whenever at most 12
restaurants match, and both Step 1 and the fallback cap results at 12. -/
theorem fallback_superset_up_to_cap (db : DB) (q city : String) :
    (q ≠ "" → step1Results db q city = [] → searchResults db q city = step2Results db q) ∧
    step2Results db q = (db.restaurant.filter (fun p => fallbackPred q p.2)).take 12 ∧
    ((db.restaurant.filter (fun p => fallbackPred q p.2)).length ≤ 12 →
      ∀ p ∈ db.restaurant, fallbackPred q p.2 = true → p ∈ step2Results db q) ∧
    (step1Results db q city).length ≤ 12 ∧
    (step2Results db q).length ≤ 12 := by
  refine ⟨?_, rfl, ?_, ?_, ?_⟩
  · intro h2 h1
    have hq : (q == "") = false := by
      cases hq2 : q == "" with
      | true => exact absurd (by simpa using hq2) h2
      | false => rfl
    simp [searchResults, h1, hq]
  · intro hlen p hp hfp
    have hmem : p ∈ db.restaurant.filter (fun x => fallbackPred q x.2) :=
      List.mem_filter.mpr ⟨hp, hfp⟩
    rw [step2Results, List.take_of_length_le hlen]
    exact hmem
  · simp [step1Results, List.length_take_le 12]
  · simp [step2Results, List.length_take_le 12]

/-- Witness for C3 (amended): on the two-restaurant store `dbSmall` (below
the cap), the query "mystery" with city "atlantis" falls back, and a
matching restaurant is indeed included. -/
theorem fallback_superset_up_to_cap_witness :
    searchResults dbSmall "mystery" "atlantis" = step2Results dbSmall "mystery" ∧
    ("b01", mysteryRest "mystery spot a") ∈ step2Results dbSmall "mystery" :=
  ⟨(fallback_superset_up_to_cap dbSmall "mystery" "atlantis").1 (by decide) (by decide),
   (fallback_superset_up_to_cap dbSmall "mystery" "atlantis").2.2.1 (by decide)
     ("b01", mysteryRest "mystery spot a") (by decide) (by decide)⟩

theorem orderedInsert_filter_rating (x : String × Restaurant) (k : ℚ) :
    ∀ L : List (String × Restaurant),
      (L.orderedInsert ratingDesc x).filter (fun p => p.2.rating_avg == k) =
        ((x :: L).filter (fun p => p.2.rating_avg == k)) := by
  intro L
  induction L with
  | nil => rfl
  | cons y ys ih =>
    by_cases hr : ratingDesc x y
    · simp [List.orderedInsert, hr]
    · have hxy : x.2.rating_avg ≠ y.2.rating_avg :=
        ne_of_lt (lt_of_not_le hr)
      by_cases hx : x.2.rating_avg = k
      · have hy : ¬ y.2.rating_avg = k := fun h => hxy (hx.trans h.symm)
        simp [List.orderedInsert, hr, List.filter_cons, hx, hy, ih]
      · simp [List.orderedInsert, hr, List.filter_cons, hx, ih]

theorem insertionSort_filter_rating (k : ℚ) :
    ∀ l : List (String × Restaurant),
      (List.insertionSort ratingDesc l).filter (fun p => p.2.rating_avg == k) =
        l.filter (fun p => p.2.rating_avg == k) := by
  intro l
  induction l with
  | nil => rfl
  | cons a l ih =>
    rw [List.insertionSort, orderedInsert_filter_rating]
    simp [List.filter_cons, ih]

/-- C5: on a non-empty candidate list the responder returns the FULL
candidate list, and its summary sentence names exactly the top 3 of the
stable descending-by-`rating_avg` sort in the fixed template; the sort is a
permutation of the candidates, is sorted descending, and is stable (within
each rating value the original order is preserved); the responder is a pure
function, so re-running it yields the same response. -/
theorem ranker_top3_stable_full_list (payload : List (String × Restaurant)) (city : String)
    (h : payload ≠ []) :
    (respond payload city).results = payload ∧
    (respond payload city).answer =
      "Top picks" ++ (if city == "" then "" else " in " ++ city) ++ ": " ++
        String.intercalate ", "
          (((List.insertionSort ratingDesc payload).take 3).map (fun t => t.2.name)) ++
        ". Tap a card to see details and reviews." ∧
    List.Perm (List.insertionSort ratingDesc payload) payload ∧
    List.Sorted ratingDesc (List.insertionSort ratingDesc payload) ∧
    (∀ k : ℚ, (List.insertionSort ratingDesc payload).filter (fun p => p.2.rating_avg == k) =
      payload.filter (fun p => p.2.rating_avg == k)) ∧
    respond payload city = respond payload city := by
  have he : payload.isEmpty = false := by
    cases payload with
    | nil => exact absurd rfl h
    | cons a l => rfl
  refine ⟨?_, ?_, List.perm_insertionSort ratingDesc payload,
    List.sorted_insertionSort ratingDesc payload,
    fun k => insertionSort_filter_rating k payload, rfl⟩
  · simp [respond, he]
  · simp [respond, he]

/-- Witness for C5: a singleton candidate list is returned in full. -/
theorem ranker_top3_stable_full_list_witness :
    (respond [(ridA, restA)] "").results = [(ridA, restA)] :=
  (ranker_top3_stable_full_list [(ridA, restA)] "" (List.cons_ne_nil _ _)).1

/-- Counterexample for C4: with the query "cheap tacos takeaway" the token
"tacos" (plural) is not in `cuisine_keywords`, so the built predicate has NO
cuisine constraint at all: a purely thai restaurant with `price_level = 1`
and takeaway satisfies it, contradicting "cuisine intersecting {mexican}". -/
theorem tacos_query_lacks_cuisine_constraint :
    (buildFilt "" (interpret "cheap tacos takeaway")).cuisine = none ∧
    filtMatches (buildFilt "" (interpret "cheap tacos takeaway"))
      ⟨"Thai Hut", "1 St", "London", ["thai"], [], true, 1, [], none, 0, 0⟩ = true := by
  decide

/-- C4 (amended): for the query "cheap taco takeaway" — with the vocabulary
token "taco" in the singular; the plural "tacos" is not in the vocabulary
and contributes no cuisine constraint — the interpreter and filter builder
produce the conjunctive predicate requiring `price_level ≤ 1`, cuisine
intersecting {mexican} ("taco" normalizes to "mexican"), and
`takeaway = true`; a restaurant with `price_level = 2` is excluded even if
its cuisine matches. -/
theorem taco_query_conjunctive_predicate :
    buildFilt "" (interpret "cheap taco takeaway") =
      ⟨none, some ["mexican"], none, none, some 1, some true⟩ ∧
    (∀ r : Restaurant,
      filtMatches (buildFilt "" (interpret "cheap taco takeaway")) r = true →
        r.price_level ≤ 1 ∧ r.cuisine.contains "mexican" = true ∧ r.takeaway = true) ∧
    (∀ r : Restaurant, r.price_level = 2 →
      filtMatches (buildFilt "" (interpret "cheap taco takeaway")) r = false) := by
  have hf : buildFilt "" (interpret "cheap taco takeaway") =
      ⟨none, some ["mexican"], none, none, some 1, some true⟩ := by decide
  refine ⟨hf, ?_, ?_⟩
  · intro r h
    rw [hf] at h
    simp only [filtMatches, Bool.and_eq_true, decide_eq_true_eq, beq_iff_eq,
      List.any_eq_true] at h
    obtain ⟨⟨⟨⟨⟨-, x, hx, hmx⟩, -⟩, -⟩, hpl⟩, htk⟩ := h
    have hx2 : x = "mexican" := by simpa using hmx
    subst hx2
    exact ⟨hpl, by simpa using List.elem_eq_true_of_mem hx, htk⟩
  · intro r h2
    rw [hf]
    simp [filtMatches, h2]

/-- Witness for C4 (amended): a cheap mexican takeaway restaurant satisfies
the three extracted constraints, and a `price_level = 2` mexican restaurant
is excluded by the same predicate. -/
theorem taco_query_conjunctive_predicate_witness :
    ((⟨"Taco Cart", "2 St", "London", ["mexican"], [], true, 1, [], none, 0, 0⟩ :
        Restaurant).price_level ≤ 1 ∧
      (⟨"Taco Cart", "2 St", "London", ["mexican"], [], true, 1, [], none, 0, 0⟩ :
        Restaurant).cuisine.contains "mexican" = true ∧
      (⟨"Taco Cart", "2 St", "London", ["mexican"], [], true, 1, [], none, 0, 0⟩ :
        Restaurant).takeaway = true) ∧
    filtMatches (buildFilt "" (interpret "cheap taco takeaway"))
      ⟨"Taco Casa", "3 St", "London", ["mexican"], [], true, 2, [], none, 0, 0⟩ = false :=
  ⟨taco_query_conjunctive_predicate.2.1
      ⟨"Taco Cart", "2 St", "London", ["mexican"], [], true, 1, [], none, 0, 0⟩ (by decide),
   taco_query_conjunctive_predicate.2.2
      ⟨"Taco Casa", "3 St", "London", ["mexican"], [], true, 2, [], none, 0, 0⟩ rfl⟩

/-- The net effect of one token on `price_level`: the value set by the last
matching `if` of the scan body (checked here in reverse order), if any. -/
def priceTokenVal (w : String) : Option Nat :=
  if ["fancy", "premium", "expensive"].contains w then some 4
  else if ["mid", "moderate", "affordable"].contains w then some 2
  else if ["cheap", "budget", "inexpensive"].contains w then some 1
  else none

/-- The net effect of one token on `takeaway`, analogously. -/
def takeTokenVal (w : String) : Option Bool :=
  if ["dine-in", "eat-in"].contains w then some false
  else if ["takeaway", "takeout", "to-go"].contains w then some true
  else none

/-- Keep `o` when present, else the default `d`. -/
def lastOr {α : Type} (o d : Option α) : Option α :=
  match o with
  | some v => some v
  | none => d

theorem applyToken_price_level (st : Intent) (word : String) :
    (applyToken st word).price_level = lastOr (priceTokenVal (stripPunct word)) st.price_level := by
  simp [applyToken, priceTokenVal, lastOr, apply_ite Intent.price_level]
  split_ifs <;> rfl

theorem applyToken_takeaway (st : Intent) (word : String) :
    (applyToken st word).takeaway = lastOr (takeTokenVal (stripPunct word)) st.takeaway := by
  simp [applyToken, takeTokenVal, lastOr, apply_ite Intent.takeaway]
  split_ifs <;> rfl

theorem lastOr_of_ne_nil {α : Type} (l : List α) (h : l ≠ []) (d d' : Option α) :
    lastOr l.getLast? d = lastOr l.getLast? d' := by
  cases hl : l.getLast? with
  | none => exact absurd (List.getLast?_eq_none_iff.mp hl) h
  | some v => rfl

theorem foldl_applyToken_price (ws : List String) :
    ∀ st : Intent, (ws.foldl applyToken st).price_level =
      lastOr ((ws.map stripPunct).filterMap priceTokenVal).getLast? st.price_level := by
  induction ws with
  | nil => intro st; rfl
  | cons w ws ih =>
    intro st
    rw [List.foldl_cons, ih, List.map_cons, List.filterMap_cons, applyToken_price_level]
    cases hw : priceTokenVal (stripPunct w) with
    | none => rfl
    | some v =>
      show lastOr ((ws.map stripPunct).filterMap priceTokenVal).getLast? (some v) =
        lastOr ((v :: (ws.map stripPunct).filterMap priceTokenVal).getLast?) st.price_level
      cases hr : (ws.map stripPunct).filterMap priceTokenVal with
      | nil => rfl
      | cons a l =>
        rw [List.getLast?_cons_cons]
        exact lastOr_of_ne_nil (a :: l) (List.cons_ne_nil a l) (some v) st.price_level

theorem foldl_applyToken_takeaway (ws : List String) :
    ∀ st : Intent, (ws.foldl applyToken st).takeaway =
      lastOr ((ws.map stripPunct).filterMap takeTokenVal).getLast? st.takeaway := by
  induction ws with
  | nil => intro st; rfl
  | cons w ws ih =>
    intro st
    rw [List.foldl_cons, ih, List.map_cons, List.filterMap_cons, applyToken_takeaway]
    cases hw : takeTokenVal (stripPunct w) with
    | none => rfl
    | some v =>
      show lastOr ((ws.map stripPunct).filterMap takeTokenVal).getLast? (some v) =
        lastOr ((v :: (ws.map stripPunct).filterMap takeTokenVal).getLast?) st.takeaway
      cases hr : (ws.map stripPunct).filterMap takeTokenVal with
      | nil => rfl
      | cons a l =>
        rw [List.getLast?_cons_cons]
        exact lastOr_of_ne_nil (a :: l) (List.cons_ne_nil a l) (some v) st.takeaway

/-- C9: for a well-formed id resolving to a record, `get_restaurant`
returns that restaurant together with its reviews sorted newest-first by
`created_at` and capped at 20 — the returned list is exactly the first 20 of
the descending sort of the reviews referencing the id, it is sorted
most-recent-first, has at most 20 entries, and every entry references the
requested restaurant. -/
theorem restaurant_detail_reviews_newest_first (db : DB) (s : String)
    (kr : String × Restaurant) (hv : isValidObjectId s = true)
    (hf : db.restaurant.find? (fun p => p.1 == pyLower s) = some kr) :
    get_restaurant db s = Except.ok ⟨kr,
      (List.insertionSort createdDesc
        (db.review.filter (fun p => p.2.restaurant_id == s))).take 20⟩ ∧
    List.Sorted createdDesc ((List.insertionSort createdDesc
      (db.review.filter (fun p => p.2.restaurant_id == s))).take 20) ∧
    ((List.insertionSort createdDesc
      (db.review.filter (fun p => p.2.restaurant_id == s))).take 20).length ≤ 20 ∧
    ∀ x ∈ (List.insertionSort createdDesc
      (db.review.filter (fun p => p.2.restaurant_id == s))).take 20,
      x.2.restaurant_id = s := by
  refine ⟨?_, ?_, List.length_take_le 20 _, ?_⟩
  · simp [get_restaurant, oid, hv, hf]
  · exact (List.sorted_insertionSort createdDesc _).sublist (List.take_sublist 20 _)
  · intro x hx
    have hx2 : x ∈ List.insertionSort createdDesc
        (db.review.filter (fun p => p.2.restaurant_id == s)) :=
      List.take_subset 20 _ hx
    have hx3 : x ∈ db.review.filter (fun p => p.2.restaurant_id == s) :=
      (List.mem_insertionSort createdDesc).1 hx2
    have := (List.mem_filter.mp hx3).2
    simpa using this

/-- Witness for C9: on a store whose three reviews were inserted with
timestamps 5, 9, 7, the detail endpoint returns them sorted 9, 7, 5. -/
theorem restaurant_detail_reviews_newest_first_witness :
    get_restaurant dbRev ridA = Except.ok ⟨(ridA, restA),
      (List.insertionSort createdDesc
        (dbRev.review.filter (fun p => p.2.restaurant_id == ridA))).take 20⟩ :=
  (restaurant_detail_reviews_newest_first dbRev ridA (ridA, restA) (by decide) (by decide)).1

example :
    get_restaurant dbRev ridA = Except.ok ⟨(ridA, restA),
      [("1", ⟨ridA, "bob", 4, none, [], 9⟩),
       ("2", ⟨ridA, "cat", 3, none, [], 7⟩),
       ("0", ⟨ridA, "ann", 5, none, [], 5⟩)]⟩ := rfl

/-- C7: when several price-tier or takeaway/dine-in tokens occur, the
interpreter keeps the value of the last matching token in scan order, with
no other precedence: the parsed `price_level` (resp. `takeaway`) equals the
last token-derived value of the stripped token list; e.g. "cheap fancy"
resolves to level 4 and "takeaway dine-in" to dine-in. -/
theorem price_takeaway_last_match_wins (q : String) :
    (interpret q).price_level =
      (((tokenize q).map stripPunct).filterMap priceTokenVal).getLast? ∧
    (interpret q).takeaway =
      (((tokenize q).map stripPunct).filterMap takeTokenVal).getLast? ∧
    (interpret "cheap fancy").price_level = some 4 ∧
    (interpret "takeaway dine-in").takeaway = some false := by
  refine ⟨?_, ?_, by decide, by decide⟩
  · rw [interpret, foldl_applyToken_price]
    cases (((tokenize q).map stripPunct).filterMap priceTokenVal).getLast? <;> rfl
  · rw [interpret, foldl_applyToken_takeaway]
    cases (((tokenize q).map stripPunct).filterMap takeTokenVal).getLast? <;> rfl

/-- Witness for C10: a review sent with the malformed id "nope" is stored in
the review collection even though the call errors with 400 "Invalid id". -/
theorem invalid_id_review_inserted_then_error_witness :
    (add_review dbA ⟨"nope", "zoe", 5, none, none⟩).2 = Except.error ⟨400, "Invalid id"⟩ ∧
    (add_review dbA ⟨"nope", "zoe", 5, none, none⟩).1.review = dbA.review ++
      [(toString dbA.nextId, ⟨"nope", "zoe", 5, none,
        (none : Option (List String)).getD [], dbA.nextId⟩)] ∧
    (add_review dbA ⟨"nope", "zoe", 5, none, none⟩).1.restaurant = dbA.restaurant :=
  invalid_id_review_inserted_then_error dbA ⟨"nope", "zoe", 5, none, none⟩ (by decide)
